import Mathlib

/-!
Verification development for the VoiceMark transcription sidecar
(`src/sidecar/src/{stream,audio,transcribe,main}.rs`), a speech-to-text
service with a one-shot HTTP endpoint and a WebSocket streaming path.

Modelling conventions (shallow embedding of the Rust source):
* Audio samples are exact rationals.  The Rust code stores `f32` values of
  the form `n / 32768.0` with `n : i16`; division by the power of two
  `32768` is exact in binary floating point for 16-bit integers, so `ℚ`
  represents exactly the same values.
* Bytes are `Nat` values (below 256 in every reachable use).
* `std::time::Instant` / `SystemTime` are modelled by an explicit
  millisecond clock: each message-handling step receives `now` (the clock
  value when the throttle check runs) and `tdone` (the clock value when
  the awaited transcription call returns, used for `last_transcribe_time`
  and for outbound timestamps).
* The external whisper engine behind `transcribe::transcribe` is a
  parameter `gw : Gateway`; `tokio::task::spawn_blocking` join errors are
  folded into the engine-error case (both surface as an `Err` on the
  awaited call, and the source treats them alike on each path).
* The sequential per-connection transport loop of `handle_socket` is the
  fold `runLoop`.  The interval during which `transcription_pending` is
  set and a transcription call is in flight inside one handling step is
  recorded in an event trace as `CallEvent.start samples :: CallEvent.stop
  :: _`, so temporal overlap of calls is expressible over traces.
-/

/-- `SAMPLE_RATE` from stream.rs: the fixed service sample rate (Hz). -/
def SAMPLE_RATE : Nat := 16000

/-- `CHUNK_SAMPLES` from stream.rs: `(16000.0_f32 * 6.0) as usize`; the
`f32` arithmetic is exact here, giving 96000. -/
def CHUNK_SAMPLES : Nat := 96000

/-- `MIN_TRANSCRIBE_INTERVAL_MS` from stream.rs: throttle interval. -/
def MIN_TRANSCRIBE_INTERVAL_MS : Nat := 500

/-- `default_sample_rate` from stream.rs, used by the serde default on the
`sample_rate` field of `ClientMessage::Audio`. -/
def default_sample_rate : Nat := 16000

/-- A normalized audio sample (exact value of the `f32` the code stores). -/
abbrev Sample := ℚ

/-- `TranscribeResult` from transcribe.rs. -/
structure TranscribeResult where
  text : String
  segments : Nat
deriving DecidableEq

/-- The external transcription engine (`transcribe::transcribe` with the
options fixed by the streaming path), § "Transcription Gateway" of the
spec: samples in, text out or an explicit error. -/
abbrev Gateway := List Sample → Except String TranscribeResult

/-- `StreamingSession` from stream.rs. -/
structure StreamingSession where
  current_chunk : List Sample
  last_transcribe_time : Option Nat
  transcription_pending : Bool
deriving DecidableEq

/-- `StreamingSession::new`. -/
def StreamingSession.new : StreamingSession :=
  { current_chunk := [], last_transcribe_time := none, transcription_pending := false }

/-- `StreamingSession::reset`: clears the chunk, the last-transcribe time
and the pending flag. -/
def StreamingSession.reset (s : StreamingSession) : StreamingSession :=
  { s with current_chunk := [], last_transcribe_time := none, transcription_pending := false }

/-- `StreamingSession::add_samples`: extends `current_chunk` and reports
whether the chunk reached `CHUNK_SAMPLES` (ready for auto-commit). -/
def StreamingSession.add_samples (s : StreamingSession) (samples : List Sample) :
    StreamingSession × Bool :=
  let c := s.current_chunk ++ samples
  (⟨c, s.last_transcribe_time, s.transcription_pending⟩, decide (CHUNK_SAMPLES ≤ c.length))

/-- `StreamingSession::should_transcribe`: false while a call is pending,
true when no call has happened yet, otherwise true once the throttle
interval has elapsed since the last call. -/
def StreamingSession.should_transcribe (s : StreamingSession) (now : Nat) : Bool :=
  if s.transcription_pending then false
  else
    match s.last_transcribe_time with
    | none => true
    | some last => decide (MIN_TRANSCRIBE_INTERVAL_MS ≤ now - last)

/-- `StreamingSession::get_chunk_clone`. -/
def StreamingSession.get_chunk_clone (s : StreamingSession) : List Sample :=
  s.current_chunk

/-- `StreamingSession::clear_chunk`. -/
def StreamingSession.clear_chunk (s : StreamingSession) : StreamingSession :=
  { s with current_chunk := [] }

/-- `StreamingSession::has_meaningful_audio`: at least half a second of
audio (`SAMPLE_RATE / 2` samples) is buffered. -/
def StreamingSession.has_meaningful_audio (s : StreamingSession) : Bool :=
  decide (SAMPLE_RATE / 2 ≤ s.current_chunk.length)

/-- `i16::from_le_bytes([b0, b1])` on byte values, as an integer. -/
def i16_from_le_bytes (b0 b1 : Nat) : Int :=
  let u := b0 + 256 * b1
  if u < 32768 then (u : Int) else (u : Int) - 65536

/-- The 16-bit-PCM-to-float conversion shared by `decode_audio`, the
binary-frame branch of `handle_socket`, and `read_wav_samples`:
`chunks_exact(2)` pairs consecutive bytes little-endian (dropping a
trailing odd byte) and divides by `32768.0`. -/
def pcmBytesToSamples : List Nat → List Sample
  | b0 :: b1 :: rest => (i16_from_le_bytes b0 b1 : ℚ) / 32768 :: pcmBytesToSamples rest
  | _ => []

/-- The even-length guard of `decode_audio` in stream.rs, applied before
the PCM conversion. -/
def pcm16_to_f32 (bytes : List Nat) : Except String (List Sample) :=
  if bytes.length % 2 ≠ 0 then
    Except.error "Invalid audio data length: must be multiple of 2"
  else
    Except.ok (pcmBytesToSamples bytes)

/-- Value of one character of the standard base64 alphabet. -/
def b64Val (c : Char) : Option Nat :=
  if 'A' ≤ c ∧ c ≤ 'Z' then some (c.toNat - 65)
  else if 'a' ≤ c ∧ c ≤ 'z' then some (c.toNat - 97 + 26)
  else if '0' ≤ c ∧ c ≤ '9' then some (c.toNat - 48 + 52)
  else if c = '+' then some 62
  else if c = '/' then some 63
  else none

/-- Decoding of base64 groups of four characters, following the semantics
of the external `base64::engine::general_purpose::STANDARD` decoder used
by `decode_audio` (canonical padding required, non-zero trailing bits
rejected, invalid characters rejected, length must be a multiple of 4). -/
def b64DecodeGroups : List Char → Option (List Nat)
  | [] => some []
  | c0 :: c1 :: c2 :: c3 :: rest =>
    match b64Val c0, b64Val c1 with
    | some v0, some v1 =>
      if c2 = '=' then
        if c3 = '=' ∧ rest = [] ∧ v1 % 16 = 0 then
          some [v0 * 4 + v1 / 16]
        else none
      else
        match b64Val c2 with
        | some v2 =>
          if c3 = '=' then
            if rest = [] ∧ v2 % 4 = 0 then
              some [v0 * 4 + v1 / 16, v1 % 16 * 16 + v2 / 4]
            else none
          else
            match b64Val c3 with
            | some v3 =>
              (b64DecodeGroups rest).map
                (fun tl =>
                  (v0 * 4 + v1 / 16) :: (v1 % 16 * 16 + v2 / 4) :: (v2 % 4 * 64 + v3) :: tl)
            | none => none
        | none => none
    | _, _ => none
  | _ => none

/-- Standard base64 decoding of a string (external `base64` crate,
`STANDARD` engine), `none` on any decode failure. -/
def base64Decode (s : String) : Option (List Nat) :=
  b64DecodeGroups s.data

/-- `decode_audio` from stream.rs: base64-decode, then reject odd byte
counts, then convert 16-bit little-endian PCM to floats. -/
def decode_audio (data : String) : Except String (List Sample) :=
  match base64Decode data with
  | none => Except.error "base64 decode error"
  | some bytes => pcm16_to_f32 bytes

/-- `ClientMessage` from stream.rs (inbound wire messages). -/
inductive ClientMessage where
  | Audio (data : String) (sample_rate : Nat)
  | End
  | Reset
deriving DecidableEq

/-- `ServerMessage` from stream.rs (outbound wire messages); the
constructors model the Rust variants with serialized tags "partial",
"final", "error", "ready". -/
inductive ServerMessage where
  | PartialMsg (text : String) (ts : Nat)
  | FinalMsg (text : String) (ts : Nat)
  | ErrorMsg (message : String)
  | ReadyMsg (message : String)
deriving DecidableEq

/-- JSON values, as far as the wire schema needs them.  `num` carries the
unsigned integers serde accepts for the `u32` field `sample_rate`. -/
inductive Json where
  | str (s : String)
  | num (n : Nat)
  | obj (fields : List (String × Json))
  | null

/-- First binding of a key in a JSON object. -/
def jLookup (fields : List (String × Json)) (k : String) : Option Json :=
  (fields.find? (fun p => p.1 == k)).map (fun p => p.2)

/-- serde deserialization of `ClientMessage` (internally tagged by the
field `type`, lowercase variant tags, unknown fields ignored, the
`sample_rate` field defaulting via `default_sample_rate` when absent). -/
def parse_client_message : Json → Option ClientMessage
  | .obj fields =>
    match jLookup fields "type" with
    | some (.str "audio") =>
      (match jLookup fields "data" with
       | some (.str d) =>
         (match jLookup fields "sample_rate" with
          | some (.num r) => some (.Audio d r)
          | some _ => none
          | none => some (.Audio d default_sample_rate))
       | _ => none)
    | some (.str "end") => some .End
    | some (.str "reset") => some .Reset
    | _ => none
  | _ => none

/-- Events recording the in-flight interval of a transcription call:
`start samples` is emitted when `transcription_pending` is set (or, on the
`End` path, when the call begins) with the snapshot handed to the
Transcription Gateway, `stop` when the awaited call returns. -/
inductive CallEvent where
  | start (samples : List Sample)
  | stop
deriving DecidableEq

/-- `handle_client_message` from stream.rs with the awaited transcription
call inlined: returns the post-handling session state, the optional
outbound message, and the trace of gateway-call events of this step. -/
def handle_client_message (gw : Gateway) (now tdone : Nat) (msg : ClientMessage)
    (s : StreamingSession) : StreamingSession × Option ServerMessage × List CallEvent :=
  match msg with
  | .Audio data sample_rate =>
    if sample_rate ≠ SAMPLE_RATE then
      (s, some (.ErrorMsg ("Expected sample rate " ++ toString SAMPLE_RATE ++ ", got "
          ++ toString sample_rate)), [])
    else
      match decode_audio data with
      | .error e => (s, some (.ErrorMsg ("Failed to decode audio: " ++ e)), [])
      | .ok samples =>
        let s1 := (s.add_samples samples).1
        if (s.add_samples samples).2 then
          -- auto-commit: set pending, snapshot, clear, call, clear pending,
          -- record the call time
          let audio_data := s1.get_chunk_clone
          let s2 : StreamingSession := ⟨(s1.clear_chunk).current_chunk, some tdone, false⟩
          match gw audio_data with
          | .ok r => (s2, some (.FinalMsg r.text tdone), [.start audio_data, .stop])
          | .error e =>
            (s2, some (.ErrorMsg ("Transcription failed: " ++ e)), [.start audio_data, .stop])
        else if s1.should_transcribe now && s1.has_meaningful_audio then
          -- throttled partial: set pending, snapshot (no clear), call,
          -- clear pending, record the call time
          let audio_data := s1.get_chunk_clone
          let s2 : StreamingSession := ⟨s1.current_chunk, some tdone, false⟩
          match gw audio_data with
          | .ok r => (s2, some (.PartialMsg r.text tdone), [.start audio_data, .stop])
          | .error e =>
            (s2, some (.ErrorMsg ("Transcription failed: " ++ e)), [.start audio_data, .stop])
        else (s1, none, [])
  | .End =>
    let audio_data := s.get_chunk_clone
    let s1 := s.reset
    if audio_data.isEmpty then
      (s1, some (.FinalMsg "" tdone), [])
    else
      match gw audio_data with
      | .ok r => (s1.reset, some (.FinalMsg r.text tdone), [.start audio_data, .stop])
      | .error e =>
        (s1.reset, some (.ErrorMsg ("Finalization failed: " ++ e)), [.start audio_data, .stop])
  | .Reset => (s.reset, some (.ReadyMsg "Session reset"), [])

/-- The `Message::Binary` branch of `handle_socket` in stream.rs.  An
odd-length frame falls through the `if data.len() % 2 == 0` guard with no
response at all, and engine errors on this path are only logged
(`error!`), producing no outbound message. -/
def handle_binary (gw : Gateway) (now tdone : Nat) (data : List Nat)
    (s : StreamingSession) : StreamingSession × Option ServerMessage × List CallEvent :=
  if data.length % 2 = 0 then
    let samples := pcmBytesToSamples data
    let s1 := (s.add_samples samples).1
    if (s.add_samples samples).2 then
      let audio_data := s1.get_chunk_clone
      let s2 : StreamingSession := ⟨(s1.clear_chunk).current_chunk, some tdone, false⟩
      match gw audio_data with
      | .ok r => (s2, some (.FinalMsg r.text tdone), [.start audio_data, .stop])
      | .error _ => (s2, none, [.start audio_data, .stop])
    else if s1.should_transcribe now && s1.has_meaningful_audio then
      let audio_data := s1.get_chunk_clone
      let s2 : StreamingSession := ⟨s1.current_chunk, some tdone, false⟩
      match gw audio_data with
      | .ok r => (s2, some (.PartialMsg r.text tdone), [.start audio_data, .stop])
      | .error _ => (s2, none, [.start audio_data, .stop])
    else (s1, none, [])
  else (s, none, [])

/-- The `Message::Text` branch of `handle_socket` in stream.rs: parse,
report a parse failure as an `Error` message leaving the session untouched,
otherwise delegate to `handle_client_message`.  The serde error text is
modelled by a fixed description. -/
def handle_text (gw : Gateway) (now tdone : Nat) (j : Json)
    (s : StreamingSession) : StreamingSession × Option ServerMessage × List CallEvent :=
  match parse_client_message j with
  | none => (s, some (.ErrorMsg "Invalid message format"), [])
  | some m => handle_client_message gw now tdone m s

/-- An inbound WebSocket frame: structured text or raw binary PCM. -/
inductive Frame where
  | text (j : Json)
  | binary (data : List Nat)

/-- One iteration of the `handle_socket` message loop on one inbound frame,
paired with the two clock readings of that iteration. -/
def step (gw : Gateway) (f : Frame × Nat × Nat) (s : StreamingSession) :
    StreamingSession × Option ServerMessage × List CallEvent :=
  match f.1 with
  | .text j => handle_text gw f.2.1 f.2.2 j s
  | .binary data => handle_binary gw f.2.1 f.2.2 data s

/-- The sequential message loop of `handle_socket`: frames are handled one
after the other, each handling step (including its awaited transcription
call) completing before the next begins.  Returns the final session state,
the per-frame outbound messages, and the concatenated call-event trace. -/
def runLoop (gw : Gateway) : List (Frame × Nat × Nat) → StreamingSession →
    StreamingSession × List (Option ServerMessage) × List CallEvent
  | [], s => (s, [], [])
  | f :: rest, s =>
    let r1 := step gw f s
    let r2 := runLoop gw rest r1.1
    (r2.1, r1.2.1 :: r2.2.1, r1.2.2 ++ r2.2.2)

/-- `find_data_chunk` from audio.rs: scan for the ASCII marker "data"
(bytes 100, 97, 116, 97) at indices below `len - 8`, returning the index
just past the marker and the 4-byte chunk size. -/
def find_data_chunk (bytes : List Nat) : Except String Nat :=
  match (List.range (bytes.length - 8)).find?
      (fun i => decide (List.take 4 (List.drop i bytes) = [100, 97, 116, 97])) with
  | some i => Except.ok (i + 8)
  | none => Except.error "Could not find data chunk in WAV file"

/-- `read_wav_samples` from audio.rs, on the bytes of the WAV file (the
file-system indirection through a temp file is dropped): reject files
shorter than 44 bytes, locate the data chunk, convert the rest as 16-bit
little-endian PCM. -/
def read_wav_samples (bytes : List Nat) : Except String (List Sample) :=
  if bytes.length < 44 then Except.error "WAV file too small"
  else
    match find_data_chunk bytes with
    | .error e => Except.error e
    | .ok i => Except.ok (pcmBytesToSamples (List.drop i bytes))

/-- Response body of the one-shot `POST /transcribe` endpoint. -/
inductive OneShotBody where
  | ok (text : String) (segments : Nat)
  | err (message : String)
deriving DecidableEq

/-- `transcribe_audio` from main.rs (the one-shot handler), with the
multipart extraction and the external ffmpeg conversion passed in as the
results of those effects: returns the HTTP status code and body. -/
def transcribe_audio (gw : Gateway) (extract : Except String (List Nat))
    (convert : List Nat → Except String (List Nat)) : Nat × OneShotBody :=
  match extract with
  | .error e => (400, .err e)
  | .ok audio_bytes =>
    match convert audio_bytes with
    | .error e => (500, .err ("Audio conversion failed: " ++ e))
    | .ok wav_bytes =>
      match read_wav_samples wav_bytes with
      | .error e => (500, .err ("Failed to read audio: " ++ e))
      | .ok samples =>
        match gw samples with
        | .ok r => (200, .ok r.text r.segments)
        | .error e => (500, .err ("Transcription failed: " ++ e))

/-- Count of `CallEvent.start` events in a trace. -/
def startCount : List CallEvent → Nat
  | [] => 0
  | .start _ :: tr => startCount tr + 1
  | .stop :: tr => startCount tr

/-- Count of `CallEvent.stop` events in a trace. -/
def stopCount : List CallEvent → Nat
  | [] => 0
  | .start _ :: tr => stopCount tr
  | .stop :: tr => stopCount tr + 1

/-- A call-event trace in which transcription invocations never overlap:
each `start` is immediately followed by its `stop`. -/
inductive NonOverlapping : List CallEvent → Prop
  | nil : NonOverlapping []
  | pair (a : List Sample) (tr : List CallEvent) :
      NonOverlapping tr → NonOverlapping (.start a :: .stop :: tr)

/-! ### Helper lemmas about the session operations -/

lemma add_samples_fst (s : StreamingSession) (samples : List Sample) :
    (s.add_samples samples).1
      = ⟨s.current_chunk ++ samples, s.last_transcribe_time, s.transcription_pending⟩ := rfl

lemma add_samples_snd_eq_true (s : StreamingSession) (samples : List Sample) :
    ((s.add_samples samples).2 = true)
      ↔ CHUNK_SAMPLES ≤ (s.current_chunk ++ samples).length := by
  simp [StreamingSession.add_samples]

lemma should_transcribe_eq_true (s : StreamingSession) (now : Nat) :
    (s.should_transcribe now = true)
      ↔ s.transcription_pending = false
        ∧ (s.last_transcribe_time = none
            ∨ ∃ last, s.last_transcribe_time = some last
                ∧ MIN_TRANSCRIBE_INTERVAL_MS ≤ now - last) := by
  rcases s with ⟨c, l, p⟩
  cases p <;> cases l <;> simp [StreamingSession.should_transcribe]

lemma has_meaningful_audio_eq_true (s : StreamingSession) :
    (s.has_meaningful_audio = true) ↔ SAMPLE_RATE / 2 ≤ s.current_chunk.length := by
  simp [StreamingSession.has_meaningful_audio]

lemma pcm_length : ∀ bytes : List Nat, (pcmBytesToSamples bytes).length = bytes.length / 2
  | [] => by simp [pcmBytesToSamples]
  | [b] => by simp [pcmBytesToSamples]
  | b0 :: b1 :: rest => by
    simp only [pcmBytesToSamples, List.length_cons, pcm_length rest]
    omega

/-! ### Branch lemmas for the message handlers -/

lemma hcm_rate_mismatch (gw : Gateway) (now tdone : Nat) (data : String) (rate : Nat)
    (s : StreamingSession) (hr : rate ≠ SAMPLE_RATE) :
    handle_client_message gw now tdone (.Audio data rate) s
      = (s, some (.ErrorMsg ("Expected sample rate " ++ toString SAMPLE_RATE ++ ", got "
          ++ toString rate)), []) := by
  simp [handle_client_message, hr]

lemma hcm_decode_error (gw : Gateway) (now tdone : Nat) (data : String) (e : String)
    (s : StreamingSession) (hdec : decode_audio data = .error e) :
    handle_client_message gw now tdone (.Audio data SAMPLE_RATE) s
      = (s, some (.ErrorMsg ("Failed to decode audio: " ++ e)), []) := by
  simp [handle_client_message, hdec]

lemma hcm_audio_full (gw : Gateway) (now tdone : Nat) (data : String)
    (samples : List Sample) (s : StreamingSession)
    (hdec : decode_audio data = .ok samples)
    (hfull : CHUNK_SAMPLES ≤ (s.current_chunk ++ samples).length) :
    handle_client_message gw now tdone (.Audio data SAMPLE_RATE) s
      = ((⟨[], some tdone, false⟩ : StreamingSession),
         (match gw (s.current_chunk ++ samples) with
          | .ok r => some (.FinalMsg r.text tdone)
          | .error e => some (.ErrorMsg ("Transcription failed: " ++ e))),
         [.start (s.current_chunk ++ samples), .stop]) := by
  simp only [handle_client_message, hdec, StreamingSession.add_samples,
    StreamingSession.get_chunk_clone, StreamingSession.clear_chunk,
    StreamingSession.has_meaningful_audio, Bool.and_eq_true, decide_eq_true_eq, ne_eq,
    not_true_eq_false, if_false]
  rw [if_pos hfull]
  cases hgw : gw (s.current_chunk ++ samples) <;> rfl

lemma hcm_audio_throttle_pass (gw : Gateway) (now tdone : Nat) (data : String)
    (samples : List Sample) (s : StreamingSession)
    (hdec : decode_audio data = .ok samples)
    (hnf : ¬ CHUNK_SAMPLES ≤ (s.current_chunk ++ samples).length)
    (hshould : StreamingSession.should_transcribe
        ⟨s.current_chunk ++ samples, s.last_transcribe_time, s.transcription_pending⟩ now = true)
    (hmean : SAMPLE_RATE / 2 ≤ (s.current_chunk ++ samples).length) :
    handle_client_message gw now tdone (.Audio data SAMPLE_RATE) s
      = ((⟨s.current_chunk ++ samples, some tdone, false⟩ : StreamingSession),
         (match gw (s.current_chunk ++ samples) with
          | .ok r => some (.PartialMsg r.text tdone)
          | .error e => some (.ErrorMsg ("Transcription failed: " ++ e))),
         [.start (s.current_chunk ++ samples), .stop]) := by
  simp only [handle_client_message, hdec, StreamingSession.add_samples,
    StreamingSession.get_chunk_clone, StreamingSession.clear_chunk,
    StreamingSession.has_meaningful_audio, Bool.and_eq_true, decide_eq_true_eq, ne_eq,
    not_true_eq_false, if_false]
  rw [if_neg hnf]
  rw [if_pos ⟨hshould, hmean⟩]
  cases hgw : gw (s.current_chunk ++ samples) <;> rfl

lemma hcm_audio_buffered (gw : Gateway) (now tdone : Nat) (data : String)
    (samples : List Sample) (s : StreamingSession)
    (hdec : decode_audio data = .ok samples)
    (hnf : ¬ CHUNK_SAMPLES ≤ (s.current_chunk ++ samples).length)
    (hcond : ¬ (StreamingSession.should_transcribe
          ⟨s.current_chunk ++ samples, s.last_transcribe_time, s.transcription_pending⟩ now = true
        ∧ SAMPLE_RATE / 2 ≤ (s.current_chunk ++ samples).length)) :
    handle_client_message gw now tdone (.Audio data SAMPLE_RATE) s
      = ((⟨s.current_chunk ++ samples, s.last_transcribe_time, s.transcription_pending⟩
            : StreamingSession), none, []) := by
  simp only [handle_client_message, hdec, StreamingSession.add_samples,
    StreamingSession.get_chunk_clone, StreamingSession.clear_chunk,
    StreamingSession.has_meaningful_audio, Bool.and_eq_true, decide_eq_true_eq, ne_eq,
    not_true_eq_false, if_false]
  rw [if_neg hnf]
  rw [if_neg hcond]

lemma hcm_end_empty (gw : Gateway) (now tdone : Nat) (s : StreamingSession)
    (h : s.current_chunk = []) :
    handle_client_message gw now tdone .End s
      = (StreamingSession.new, some (.FinalMsg "" tdone), []) := by
  simp [handle_client_message, StreamingSession.get_chunk_clone, h, StreamingSession.reset,
    StreamingSession.new]

lemma hcm_end_nonempty (gw : Gateway) (now tdone : Nat) (s : StreamingSession)
    (h : s.current_chunk ≠ []) :
    handle_client_message gw now tdone .End s
      = (StreamingSession.new,
         (match gw s.current_chunk with
          | .ok r => some (.FinalMsg r.text tdone)
          | .error e => some (.ErrorMsg ("Finalization failed: " ++ e))),
         [.start s.current_chunk, .stop]) := by
  cases hgw : gw s.current_chunk <;>
    simp [handle_client_message, StreamingSession.get_chunk_clone, h, hgw,
      StreamingSession.reset, StreamingSession.new]

lemma hcm_reset (gw : Gateway) (now tdone : Nat) (s : StreamingSession) :
    handle_client_message gw now tdone .Reset s
      = (StreamingSession.new, some (.ReadyMsg "Session reset"), []) := rfl

lemma hb_odd (gw : Gateway) (now tdone : Nat) (data : List Nat) (s : StreamingSession)
    (h : ¬ data.length % 2 = 0) :
    handle_binary gw now tdone data s = (s, none, []) := by
  simp [handle_binary, h]

lemma hb_full (gw : Gateway) (now tdone : Nat) (data : List Nat) (s : StreamingSession)
    (h2 : data.length % 2 = 0)
    (hfull : CHUNK_SAMPLES ≤ (s.current_chunk ++ pcmBytesToSamples data).length) :
    handle_binary gw now tdone data s
      = ((⟨[], some tdone, false⟩ : StreamingSession),
         (match gw (s.current_chunk ++ pcmBytesToSamples data) with
          | .ok r => some (.FinalMsg r.text tdone)
          | .error _ => none),
         [.start (s.current_chunk ++ pcmBytesToSamples data), .stop]) := by
  simp only [handle_binary, h2, if_true, StreamingSession.add_samples,
    StreamingSession.get_chunk_clone, StreamingSession.clear_chunk,
    StreamingSession.has_meaningful_audio, Bool.and_eq_true, decide_eq_true_eq, if_pos]
  rw [if_pos hfull]
  cases hgw : gw (s.current_chunk ++ pcmBytesToSamples data) <;> rfl

lemma hb_throttle_pass (gw : Gateway) (now tdone : Nat) (data : List Nat)
    (s : StreamingSession)
    (h2 : data.length % 2 = 0)
    (hnf : ¬ CHUNK_SAMPLES ≤ (s.current_chunk ++ pcmBytesToSamples data).length)
    (hshould : StreamingSession.should_transcribe
        ⟨s.current_chunk ++ pcmBytesToSamples data, s.last_transcribe_time,
          s.transcription_pending⟩ now = true)
    (hmean : SAMPLE_RATE / 2 ≤ (s.current_chunk ++ pcmBytesToSamples data).length) :
    handle_binary gw now tdone data s
      = ((⟨s.current_chunk ++ pcmBytesToSamples data, some tdone, false⟩ : StreamingSession),
         (match gw (s.current_chunk ++ pcmBytesToSamples data) with
          | .ok r => some (.PartialMsg r.text tdone)
          | .error _ => none),
         [.start (s.current_chunk ++ pcmBytesToSamples data), .stop]) := by
  simp only [handle_binary, h2, if_true, StreamingSession.add_samples,
    StreamingSession.get_chunk_clone, StreamingSession.clear_chunk,
    StreamingSession.has_meaningful_audio, Bool.and_eq_true, decide_eq_true_eq, if_pos]
  rw [if_neg hnf]
  rw [if_pos ⟨hshould, hmean⟩]
  cases hgw : gw (s.current_chunk ++ pcmBytesToSamples data) <;> rfl

lemma hb_buffered (gw : Gateway) (now tdone : Nat) (data : List Nat)
    (s : StreamingSession)
    (h2 : data.length % 2 = 0)
    (hnf : ¬ CHUNK_SAMPLES ≤ (s.current_chunk ++ pcmBytesToSamples data).length)
    (hcond : ¬ (StreamingSession.should_transcribe
          ⟨s.current_chunk ++ pcmBytesToSamples data, s.last_transcribe_time,
            s.transcription_pending⟩ now = true
        ∧ SAMPLE_RATE / 2 ≤ (s.current_chunk ++ pcmBytesToSamples data).length)) :
    handle_binary gw now tdone data s
      = ((⟨s.current_chunk ++ pcmBytesToSamples data, s.last_transcribe_time,
            s.transcription_pending⟩ : StreamingSession), none, []) := by
  simp only [handle_binary, h2, if_true, StreamingSession.add_samples,
    StreamingSession.get_chunk_clone, StreamingSession.clear_chunk,
    StreamingSession.has_meaningful_audio, Bool.and_eq_true, decide_eq_true_eq, if_pos]
  rw [if_neg hnf]
  rw [if_neg hcond]

/-! ### Event-trace and loop helpers -/

lemma chunk_samples_pos : 0 < CHUNK_SAMPLES := by decide

lemma half_rate_pos : 0 < SAMPLE_RATE / 2 := by decide

lemma hcm_events (gw : Gateway) (now tdone : Nat) (msg : ClientMessage)
    (s : StreamingSession) :
    (handle_client_message gw now tdone msg s).2.2 = []
      ∨ ∃ a, a ≠ []
          ∧ (handle_client_message gw now tdone msg s).2.2 = [.start a, .stop] := by
  cases msg with
  | Audio data rate =>
    by_cases hr : rate = SAMPLE_RATE
    · subst hr
      cases hdec : decode_audio data with
      | error e => left; rw [hcm_decode_error gw now tdone data e s hdec]
      | ok samples =>
        by_cases hfull : CHUNK_SAMPLES ≤ (s.current_chunk ++ samples).length
        · right
          refine ⟨s.current_chunk ++ samples, ?_, ?_⟩
          · exact List.ne_nil_of_length_pos (lt_of_lt_of_le chunk_samples_pos hfull)
          · rw [hcm_audio_full gw now tdone data samples s hdec hfull]
        · by_cases hcond : StreamingSession.should_transcribe
              ⟨s.current_chunk ++ samples, s.last_transcribe_time,
                s.transcription_pending⟩ now = true
              ∧ SAMPLE_RATE / 2 ≤ (s.current_chunk ++ samples).length
          · right
            refine ⟨s.current_chunk ++ samples, ?_, ?_⟩
            · exact List.ne_nil_of_length_pos (lt_of_lt_of_le half_rate_pos hcond.2)
            · rw [hcm_audio_throttle_pass gw now tdone data samples s hdec hfull
                hcond.1 hcond.2]
          · left
            rw [hcm_audio_buffered gw now tdone data samples s hdec hfull hcond]
    · left; rw [hcm_rate_mismatch gw now tdone data rate s hr]
  | End =>
    by_cases h : s.current_chunk = []
    · left; rw [hcm_end_empty gw now tdone s h]
    · right
      exact ⟨s.current_chunk, h, by rw [hcm_end_nonempty gw now tdone s h]⟩
  | Reset => left; rfl

lemma hb_events (gw : Gateway) (now tdone : Nat) (data : List Nat)
    (s : StreamingSession) :
    (handle_binary gw now tdone data s).2.2 = []
      ∨ ∃ a, a ≠ []
          ∧ (handle_binary gw now tdone data s).2.2 = [.start a, .stop] := by
  by_cases h2 : data.length % 2 = 0
  · by_cases hfull : CHUNK_SAMPLES ≤ (s.current_chunk ++ pcmBytesToSamples data).length
    · right
      refine ⟨s.current_chunk ++ pcmBytesToSamples data, ?_, ?_⟩
      · exact List.ne_nil_of_length_pos (lt_of_lt_of_le chunk_samples_pos hfull)
      · rw [hb_full gw now tdone data s h2 hfull]
    · by_cases hcond : StreamingSession.should_transcribe
          ⟨s.current_chunk ++ pcmBytesToSamples data, s.last_transcribe_time,
            s.transcription_pending⟩ now = true
          ∧ SAMPLE_RATE / 2 ≤ (s.current_chunk ++ pcmBytesToSamples data).length
      · right
        refine ⟨s.current_chunk ++ pcmBytesToSamples data, ?_, ?_⟩
        · exact List.ne_nil_of_length_pos (lt_of_lt_of_le half_rate_pos hcond.2)
        · rw [hb_throttle_pass gw now tdone data s h2 hfull hcond.1 hcond.2]
      · left; rw [hb_buffered gw now tdone data s h2 hfull hcond]
  · left; rw [hb_odd gw now tdone data s h2]

lemma step_events (gw : Gateway) (f : Frame × Nat × Nat) (s : StreamingSession) :
    (step gw f s).2.2 = []
      ∨ ∃ a, a ≠ [] ∧ (step gw f s).2.2 = [.start a, .stop] := by
  rcases f with ⟨fr, now, tdone⟩
  cases fr with
  | text j =>
    cases hp : parse_client_message j with
    | none => left; simp [step, handle_text, hp]
    | some m =>
      have hst : step gw (Frame.text j, now, tdone) s
          = handle_client_message gw now tdone m s := by
        simp [step, handle_text, hp]
      rw [hst]
      exact hcm_events gw now tdone m s
  | binary data => exact hb_events gw now tdone data s

lemma nonOverlapping_append {xs ys : List CallEvent} (hx : NonOverlapping xs)
    (hy : NonOverlapping ys) : NonOverlapping (xs ++ ys) := by
  induction hx with
  | nil => simpa using hy
  | pair a tr _ ih => exact NonOverlapping.pair a (tr ++ ys) ih

lemma runLoop_nonOverlapping (gw : Gateway) (frames : List (Frame × Nat × Nat))
    (s : StreamingSession) : NonOverlapping (runLoop gw frames s).2.2 := by
  induction frames generalizing s with
  | nil => exact NonOverlapping.nil
  | cons f rest ih =>
    show NonOverlapping ((step gw f s).2.2 ++ (runLoop gw rest (step gw f s).1).2.2)
    rcases step_events gw f s with h | ⟨a, _, h⟩ <;> rw [h]
    · simpa using ih (step gw f s).1
    · exact NonOverlapping.pair a _ (ih (step gw f s).1)

lemma nonOverlapping_counts {tr : List CallEvent} (h : NonOverlapping tr) :
    ∀ p q : List CallEvent, p ++ q = tr →
      stopCount p ≤ startCount p ∧ startCount p ≤ stopCount p + 1 := by
  induction h with
  | nil =>
    intro p q hpq
    rcases List.append_eq_nil.mp hpq with ⟨rfl, rfl⟩
    simp [startCount, stopCount]
  | pair a tr _ ih =>
    intro p q hpq
    match p, hpq with
    | [], _ => simp [startCount, stopCount]
    | [CallEvent.start b], h =>
      simp [startCount, stopCount]
    | CallEvent.start b :: CallEvent.stop :: p', h =>
      have h' : p' ++ q = tr := by
        simpa using congrArg (fun l => l.tail.tail) h
      have := ih p' q h'
      simp only [startCount, stopCount]
      omega

lemma runLoop_length (gw : Gateway) (frames : List (Frame × Nat × Nat))
    (s : StreamingSession) : ((runLoop gw frames s).2.1).length = frames.length := by
  induction frames generalizing s with
  | nil => rfl
  | cons f rest ih =>
    show ((step gw f s).2.1 :: (runLoop gw rest (step gw f s).1).2.1).length = _
    simp [ih]

lemma hcm_bound (gw : Gateway) (now tdone : Nat) (msg : ClientMessage)
    (s : StreamingSession) (h : s.current_chunk.length < CHUNK_SAMPLES) :
    ((handle_client_message gw now tdone msg s).1).current_chunk.length < CHUNK_SAMPLES := by
  cases msg with
  | Audio data rate =>
    by_cases hr : rate = SAMPLE_RATE
    · subst hr
      cases hdec : decode_audio data with
      | error e => rw [hcm_decode_error gw now tdone data e s hdec]; exact h
      | ok samples =>
        by_cases hfull : CHUNK_SAMPLES ≤ (s.current_chunk ++ samples).length
        · rw [hcm_audio_full gw now tdone data samples s hdec hfull]
          exact chunk_samples_pos
        · by_cases hcond : StreamingSession.should_transcribe
              ⟨s.current_chunk ++ samples, s.last_transcribe_time,
                s.transcription_pending⟩ now = true
              ∧ SAMPLE_RATE / 2 ≤ (s.current_chunk ++ samples).length
          · rw [hcm_audio_throttle_pass gw now tdone data samples s hdec hfull
              hcond.1 hcond.2]
            exact Nat.lt_of_not_le hfull
          · rw [hcm_audio_buffered gw now tdone data samples s hdec hfull hcond]
            exact Nat.lt_of_not_le hfull
    · rw [hcm_rate_mismatch gw now tdone data rate s hr]; exact h
  | End =>
    by_cases hc : s.current_chunk = []
    · rw [hcm_end_empty gw now tdone s hc]; exact chunk_samples_pos
    · rw [hcm_end_nonempty gw now tdone s hc]; exact chunk_samples_pos
  | Reset => rw [hcm_reset gw now tdone s]; exact chunk_samples_pos

lemma hb_bound (gw : Gateway) (now tdone : Nat) (data : List Nat)
    (s : StreamingSession) (h : s.current_chunk.length < CHUNK_SAMPLES) :
    ((handle_binary gw now tdone data s).1).current_chunk.length < CHUNK_SAMPLES := by
  by_cases h2 : data.length % 2 = 0
  · by_cases hfull : CHUNK_SAMPLES ≤ (s.current_chunk ++ pcmBytesToSamples data).length
    · rw [hb_full gw now tdone data s h2 hfull]; exact chunk_samples_pos
    · by_cases hcond : StreamingSession.should_transcribe
          ⟨s.current_chunk ++ pcmBytesToSamples data, s.last_transcribe_time,
            s.transcription_pending⟩ now = true
          ∧ SAMPLE_RATE / 2 ≤ (s.current_chunk ++ pcmBytesToSamples data).length
      · rw [hb_throttle_pass gw now tdone data s h2 hfull hcond.1 hcond.2]
        exact Nat.lt_of_not_le hfull
      · rw [hb_buffered gw now tdone data s h2 hfull hcond]
        exact Nat.lt_of_not_le hfull
  · rw [hb_odd gw now tdone data s h2]; exact h

lemma step_bound (gw : Gateway) (f : Frame × Nat × Nat) (s : StreamingSession)
    (h : s.current_chunk.length < CHUNK_SAMPLES) :
    ((step gw f s).1).current_chunk.length < CHUNK_SAMPLES := by
  rcases f with ⟨fr, now, tdone⟩
  cases fr with
  | text j =>
    cases hp : parse_client_message j with
    | none =>
      have hst : step gw (Frame.text j, now, tdone) s = (s, some (.ErrorMsg "Invalid message format"), []) := by
        simp [step, handle_text, hp]
      rw [hst]; exact h
    | some m =>
      have hst : step gw (Frame.text j, now, tdone) s
          = handle_client_message gw now tdone m s := by
        simp [step, handle_text, hp]
      rw [hst]
      exact hcm_bound gw now tdone m s h
  | binary data => exact hb_bound gw now tdone data s h

lemma runLoop_bound (gw : Gateway) (frames : List (Frame × Nat × Nat))
    (s : StreamingSession) (h : s.current_chunk.length < CHUNK_SAMPLES) :
    ((runLoop gw frames s).1).current_chunk.length < CHUNK_SAMPLES := by
  induction frames generalizing s with
  | nil => exact h
  | cons f rest ih =>
    show ((runLoop gw rest (step gw f s).1).1).current_chunk.length < CHUNK_SAMPLES
    exact ih (step gw f s).1 (step_bound gw f s h)

lemma decode_audio_example : decode_audio "AAD/fw==" = Except.ok [0, 32767 / 32768] := by
  have h : base64Decode "AAD/fw==" = some [0, 0, 255, 127] := by rfl
  simp [decode_audio, h, pcm16_to_f32, pcmBytesToSamples, i16_from_le_bytes]

/-! ### Claims -/

/-- C1: for every streaming session, no two transcription invocations ever
overlap in time.  Over the sequential transport loop, every prefix of the
call-event trace has at most one more `start` than `stop` (at most one call
in flight at any instant); and while a call is pending,
`should_transcribe` returns false, so a second triggering message buffers
without starting a call. -/
theorem spec_C1_no_overlapping_invocations :
    (∀ (gw : Gateway) (frames : List (Frame × Nat × Nat)) (s0 : StreamingSession)
        (p q : List CallEvent), p ++ q = (runLoop gw frames s0).2.2 →
        stopCount p ≤ startCount p ∧ startCount p ≤ stopCount p + 1)
    ∧ (∀ (s : StreamingSession) (now : Nat), s.transcription_pending = true →
        s.should_transcribe now = false) := by
  constructor
  · intro gw frames s0 p q hpq
    exact nonOverlapping_counts (runLoop_nonOverlapping gw frames s0) p q hpq
  · intro s now h
    simp [StreamingSession.should_transcribe, h]

/-- Witness for C1 at a concrete trace and a concrete pending session. -/
theorem spec_C1_witness :
    (stopCount [] ≤ startCount [] ∧ startCount [] ≤ stopCount [] + 1)
    ∧ StreamingSession.should_transcribe ⟨[], none, true⟩ 0 = false :=
  ⟨spec_C1_no_overlapping_invocations.1 (fun _ => Except.error "e") []
      StreamingSession.new [] [] rfl,
   spec_C1_no_overlapping_invocations.2 ⟨[], none, true⟩ 0 rfl⟩

/-- C3: the session buffer is bounded by `CHUNK_SAMPLES` after every
handling step; when an append reaches the bound, the full buffer (old
content plus the newly appended samples, nothing discarded from the front)
is handed to the gateway and the buffer is cleared in the same step; from a
fresh session the bound holds after any frame sequence. -/
theorem spec_C3_buffer_bounded :
    (∀ (gw : Gateway) (f : Frame × Nat × Nat) (s : StreamingSession),
        s.current_chunk.length < CHUNK_SAMPLES →
        ((step gw f s).1).current_chunk.length < CHUNK_SAMPLES)
    ∧ (∀ (gw : Gateway) (now tdone : Nat) (data : String) (samples : List Sample)
        (s : StreamingSession),
        decode_audio data = .ok samples →
        CHUNK_SAMPLES ≤ (s.current_chunk ++ samples).length →
        ((handle_client_message gw now tdone (.Audio data SAMPLE_RATE) s).1).current_chunk
            = []
          ∧ (handle_client_message gw now tdone (.Audio data SAMPLE_RATE) s).2.2
              = [.start (s.current_chunk ++ samples), .stop])
    ∧ (∀ (gw : Gateway) (frames : List (Frame × Nat × Nat)),
        ((runLoop gw frames StreamingSession.new).1).current_chunk.length
          < CHUNK_SAMPLES) := by
  refine ⟨step_bound, ?_, ?_⟩
  · intro gw now tdone data samples s hdec hfull
    rw [hcm_audio_full gw now tdone data samples s hdec hfull]
    exact ⟨rfl, rfl⟩
  · intro gw frames
    exact runLoop_bound gw frames StreamingSession.new chunk_samples_pos

/-- Witness for C3 at a concrete step from a fresh session. -/
theorem spec_C3_witness :
    ((step (fun _ => Except.error "e") (Frame.binary [], 0, 0)
        StreamingSession.new).1).current_chunk.length < CHUNK_SAMPLES :=
  spec_C3_buffer_bounded.1 (fun _ => Except.error "e") (Frame.binary [], 0, 0)
    StreamingSession.new chunk_samples_pos

/-- C4: every protocol error (unparsable payload, wrong sample rate, or
audio payload that fails to decode) yields exactly one `Error` message,
leaves the session untouched, and the loop keeps processing every inbound
frame (one response slot per frame, connection stays open). -/
theorem spec_C4_protocol_errors :
    (∀ (gw : Gateway) (now tdone : Nat) (j : Json) (s : StreamingSession),
        parse_client_message j = none →
        handle_text gw now tdone j s
          = (s, some (.ErrorMsg "Invalid message format"), []))
    ∧ (∀ (gw : Gateway) (now tdone : Nat) (data : String) (rate : Nat)
        (s : StreamingSession), rate ≠ SAMPLE_RATE →
        handle_client_message gw now tdone (.Audio data rate) s
          = (s, some (.ErrorMsg ("Expected sample rate " ++ toString SAMPLE_RATE
              ++ ", got " ++ toString rate)), []))
    ∧ (∀ (gw : Gateway) (now tdone : Nat) (data e : String) (s : StreamingSession),
        decode_audio data = .error e →
        handle_client_message gw now tdone (.Audio data SAMPLE_RATE) s
          = (s, some (.ErrorMsg ("Failed to decode audio: " ++ e)), []))
    ∧ (∀ (gw : Gateway) (frames : List (Frame × Nat × Nat)) (s : StreamingSession),
        ((runLoop gw frames s).2.1).length = frames.length) := by
  refine ⟨?_, ?_, ?_, runLoop_length⟩
  · intro gw now tdone j s hp
    simp [handle_text, hp]
  · intro gw now tdone data rate s hr
    exact hcm_rate_mismatch gw now tdone data rate s hr
  · intro gw now tdone data e s hdec
    exact hcm_decode_error gw now tdone data e s hdec

/-- Witness for C4: a null payload and an odd-byte-count base64 payload. -/
theorem spec_C4_witness :
    handle_text (fun _ => Except.error "e") 0 0 Json.null StreamingSession.new
        = (StreamingSession.new, some (.ErrorMsg "Invalid message format"), [])
    ∧ handle_client_message (fun _ => Except.error "e") 0 0 (.Audio "AA==" SAMPLE_RATE)
        StreamingSession.new
        = (StreamingSession.new,
           some (.ErrorMsg ("Failed to decode audio: "
             ++ "Invalid audio data length: must be multiple of 2")), []) :=
  ⟨spec_C4_protocol_errors.1 (fun _ => Except.error "e") 0 0 Json.null
      StreamingSession.new rfl,
   spec_C4_protocol_errors.2.2.1 (fun _ => Except.error "e") 0 0 "AA=="
      "Invalid audio data length: must be multiple of 2" StreamingSession.new (by rfl)⟩

/-- C8: the audio normalizer is pure: one float per consecutive byte pair,
little-endian signed 16-bit, divided by 32768, order preserved; odd-length
input fails with an explicit error; and the two samples 0x0000, 0x7FFF
decode to 0 and 32767/32768 (≈ 0.99997) in that order. -/
theorem spec_C8_normalizer :
    (pcmBytesToSamples [] = []
      ∧ ∀ (b0 b1 : Nat) (rest : List Nat),
          pcmBytesToSamples (b0 :: b1 :: rest)
            = (i16_from_le_bytes b0 b1 : ℚ) / 32768 :: pcmBytesToSamples rest)
    ∧ (∀ bytes : List Nat, bytes.length % 2 = 0 →
        pcm16_to_f32 bytes = Except.ok (pcmBytesToSamples bytes)
          ∧ (pcmBytesToSamples bytes).length = bytes.length / 2)
    ∧ (∀ bytes : List Nat, ¬ bytes.length % 2 = 0 →
        pcm16_to_f32 bytes
          = Except.error "Invalid audio data length: must be multiple of 2")
    ∧ decode_audio "AAD/fw==" = Except.ok [0, 32767 / 32768] := by
  refine ⟨⟨rfl, fun b0 b1 rest => rfl⟩, ?_, ?_, decode_audio_example⟩
  · intro bytes h
    exact ⟨by simp [pcm16_to_f32, h], pcm_length bytes⟩
  · intro bytes h
    simp [pcm16_to_f32, h]

/-- Witness for C8 at a two-byte and a one-byte input. -/
theorem spec_C8_witness :
    pcm16_to_f32 [0, 0] = Except.ok (pcmBytesToSamples [0, 0])
    ∧ pcm16_to_f32 [0] = Except.error "Invalid audio data length: must be multiple of 2" :=
  ⟨(spec_C8_normalizer.2.1 [0, 0] rfl).1,
   spec_C8_normalizer.2.2.1 [0] (by decide)⟩

/-- C9: `Reset` returns any session to a state observably identical to a
fresh one: `reset` equals `new` outright, the `Reset` message produces
exactly the reset state plus a `Ready` acknowledgment without any gateway
call, and the next `should_transcribe` decision matches a fresh session. -/
theorem spec_C9_reset :
    (∀ s : StreamingSession, s.reset = StreamingSession.new)
    ∧ (∀ (gw : Gateway) (now tdone : Nat) (s : StreamingSession),
        handle_client_message gw now tdone .Reset s
          = (StreamingSession.new, some (.ReadyMsg "Session reset"), []))
    ∧ (∀ (s : StreamingSession) (now : Nat),
        (s.reset).should_transcribe now = StreamingSession.new.should_transcribe now) :=
  ⟨fun _ => rfl, hcm_reset, fun _ _ => rfl⟩

/-- C10: a text Audio message omitting `sample_rate` parses successfully,
the field defaulting to 16000, and is then processed exactly as a valid
Audio message at the service rate. -/
theorem spec_C10_default_sample_rate :
    (∀ d : String,
        parse_client_message (.obj [("type", .str "audio"), ("data", .str d)])
          = some (.Audio d 16000))
    ∧ (∀ (gw : Gateway) (now tdone : Nat) (d : String) (s : StreamingSession),
        handle_text gw now tdone (.obj [("type", .str "audio"), ("data", .str d)]) s
          = handle_client_message gw now tdone (.Audio d 16000) s) :=
  ⟨fun _ => rfl, fun _ _ _ _ _ => rfl⟩

/-- C2: for a valid Audio message, reaching `CHUNK_SAMPLES` commits the
whole chunk as `Final` and clears the buffer; below the target (with the
gateway succeeding on the buffered snapshot) a `Partial` is emitted exactly
when at least half a second is buffered, the throttle interval has elapsed
since the last invocation (or none happened), and no call is in flight;
otherwise no outbound message is produced. -/
theorem spec_C2_fixed_chunk_policy :
    ∀ (gw : Gateway) (now tdone : Nat) (data : String) (samples : List Sample)
      (s : StreamingSession) (r : TranscribeResult),
      decode_audio data = .ok samples →
      (CHUNK_SAMPLES ≤ (s.current_chunk ++ samples).length →
        gw (s.current_chunk ++ samples) = .ok r →
        handle_client_message gw now tdone (.Audio data SAMPLE_RATE) s
          = ((⟨[], some tdone, false⟩ : StreamingSession),
             some (.FinalMsg r.text tdone),
             [.start (s.current_chunk ++ samples), .stop]))
      ∧ ((s.current_chunk ++ samples).length < CHUNK_SAMPLES →
        gw (s.current_chunk ++ samples) = .ok r →
        (((handle_client_message gw now tdone (.Audio data SAMPLE_RATE) s).2.1
            = some (.PartialMsg r.text tdone))
          ↔ (SAMPLE_RATE / 2 ≤ (s.current_chunk ++ samples).length
              ∧ s.transcription_pending = false
              ∧ (s.last_transcribe_time = none
                  ∨ ∃ last, s.last_transcribe_time = some last
                      ∧ MIN_TRANSCRIBE_INTERVAL_MS ≤ now - last))))
      ∧ ((s.current_chunk ++ samples).length < CHUNK_SAMPLES →
        ¬ (SAMPLE_RATE / 2 ≤ (s.current_chunk ++ samples).length
            ∧ s.transcription_pending = false
            ∧ (s.last_transcribe_time = none
                ∨ ∃ last, s.last_transcribe_time = some last
                    ∧ MIN_TRANSCRIBE_INTERVAL_MS ≤ now - last)) →
        handle_client_message gw now tdone (.Audio data SAMPLE_RATE) s
          = ((⟨s.current_chunk ++ samples, s.last_transcribe_time,
              s.transcription_pending⟩ : StreamingSession), none, [])) := by
  intro gw now tdone data samples s r hdec
  refine ⟨?_, ?_, ?_⟩
  · intro hfull hgw
    rw [hcm_audio_full gw now tdone data samples s hdec hfull, hgw]
  · intro hlt hgw
    have hnf : ¬ CHUNK_SAMPLES ≤ (s.current_chunk ++ samples).length :=
      Nat.not_le_of_lt hlt
    constructor
    · intro hout
      by_cases hcond : StreamingSession.should_transcribe
            ⟨s.current_chunk ++ samples, s.last_transcribe_time,
              s.transcription_pending⟩ now = true
            ∧ SAMPLE_RATE / 2 ≤ (s.current_chunk ++ samples).length
      · refine ⟨hcond.2, ?_⟩
        have h := (should_transcribe_eq_true
          ⟨s.current_chunk ++ samples, s.last_transcribe_time,
            s.transcription_pending⟩ now).mp hcond.1
        exact h
      · exfalso
        rw [hcm_audio_buffered gw now tdone data samples s hdec hnf hcond] at hout
        simp at hout
    · rintro ⟨hmean, hpend, hlast⟩
      have hshould : StreamingSession.should_transcribe
          ⟨s.current_chunk ++ samples, s.last_transcribe_time,
            s.transcription_pending⟩ now = true :=
        (should_transcribe_eq_true _ now).mpr ⟨hpend, hlast⟩
      rw [hcm_audio_throttle_pass gw now tdone data samples s hdec hnf hshould hmean,
        hgw]
  · intro hlt hcond
    have hnf : ¬ CHUNK_SAMPLES ≤ (s.current_chunk ++ samples).length :=
      Nat.not_le_of_lt hlt
    apply hcm_audio_buffered gw now tdone data samples s hdec hnf
    rintro ⟨h1, h2⟩
    apply hcond
    have h := (should_transcribe_eq_true
      ⟨s.current_chunk ++ samples, s.last_transcribe_time,
        s.transcription_pending⟩ now).mp h1
    exact ⟨h2, h.1, h.2⟩

/-- Witness for C2: a short message on a fresh session buffers with no
outbound message. -/
theorem spec_C2_witness :
    handle_client_message (fun _ => Except.ok ⟨"hi", 1⟩) 0 0
        (.Audio "AAD/fw==" SAMPLE_RATE) StreamingSession.new
      = ((⟨[0, 32767 / 32768], none, false⟩ : StreamingSession), none, []) := by
  have h := (spec_C2_fixed_chunk_policy (fun _ => Except.ok ⟨"hi", 1⟩) 0 0
      "AAD/fw==" [0, 32767 / 32768] StreamingSession.new ⟨"hi", 1⟩
      decode_audio_example).2.2
    (by simp [StreamingSession.new, CHUNK_SAMPLES])
    (by
      rintro ⟨h8, -, -⟩
      simp [StreamingSession.new, SAMPLE_RATE] at h8)
  simpa [StreamingSession.new] using h

/-- C5: `End` on an empty session yields exactly `Final` with empty text
and the current timestamp with no gateway call; and any other `Partial` or
`Final` is produced by a gateway call on a nonempty snapshot. -/
theorem spec_C5_empty_buffer :
    (∀ (gw : Gateway) (now tdone : Nat) (s : StreamingSession),
        s.current_chunk = [] →
        handle_client_message gw now tdone .End s
          = (StreamingSession.new, some (.FinalMsg "" tdone), []))
    ∧ (∀ (gw : Gateway) (now tdone : Nat) (msg : ClientMessage) (s : StreamingSession)
        (text : String) (ts : Nat),
        ((handle_client_message gw now tdone msg s).2.1 = some (.PartialMsg text ts)
          ∨ (handle_client_message gw now tdone msg s).2.1 = some (.FinalMsg text ts)) →
        (msg = .End ∧ s.current_chunk = [] ∧ text = "" ∧ ts = tdone)
          ∨ ∃ a, a ≠ []
              ∧ (handle_client_message gw now tdone msg s).2.2
                  = [.start a, .stop]) := by
  constructor
  · exact hcm_end_empty
  · intro gw now tdone msg s text ts hout
    cases msg with
    | Audio data rate =>
      right
      by_cases hr : rate = SAMPLE_RATE
      · subst hr
        cases hdec : decode_audio data with
        | error e =>
          rw [hcm_decode_error gw now tdone data e s hdec] at hout
          rcases hout with h | h <;> simp at h
        | ok samples =>
          by_cases hfull : CHUNK_SAMPLES ≤ (s.current_chunk ++ samples).length
          · refine ⟨s.current_chunk ++ samples,
              List.ne_nil_of_length_pos (lt_of_lt_of_le chunk_samples_pos hfull), ?_⟩
            rw [hcm_audio_full gw now tdone data samples s hdec hfull]
          · by_cases hcond : StreamingSession.should_transcribe
                ⟨s.current_chunk ++ samples, s.last_transcribe_time,
                  s.transcription_pending⟩ now = true
                ∧ SAMPLE_RATE / 2 ≤ (s.current_chunk ++ samples).length
            · refine ⟨s.current_chunk ++ samples,
                List.ne_nil_of_length_pos (lt_of_lt_of_le half_rate_pos hcond.2), ?_⟩
              rw [hcm_audio_throttle_pass gw now tdone data samples s hdec hfull
                hcond.1 hcond.2]
            · exfalso
              rw [hcm_audio_buffered gw now tdone data samples s hdec hfull hcond] at hout
              rcases hout with h | h <;> simp at h
      · exfalso
        rw [hcm_rate_mismatch gw now tdone data rate s hr] at hout
        rcases hout with h | h <;> simp at h
    | End =>
      by_cases hc : s.current_chunk = []
      · left
        rw [hcm_end_empty gw now tdone s hc] at hout
        rcases hout with h | h
        · simp at h
        · simp only [Option.some.injEq, ServerMessage.FinalMsg.injEq] at h
          exact ⟨rfl, hc, h.1.symm, h.2.symm⟩
      · right
        exact ⟨s.current_chunk, hc, by rw [hcm_end_nonempty gw now tdone s hc]⟩
    | Reset =>
      exfalso
      rw [hcm_reset gw now tdone s] at hout
      rcases hout with h | h <;> simp at h

/-- Witness for C5: `End` on a fresh session. -/
theorem spec_C5_witness :
    handle_client_message (fun _ => Except.error "e") 0 42 .End StreamingSession.new
      = (StreamingSession.new, some (.FinalMsg "" 42), []) :=
  spec_C5_empty_buffer.1 (fun _ => Except.error "e") 0 42 StreamingSession.new rfl

/-- Counterexample for C6 as stated: a raw binary frame triggers a
transcription (a call event occurs) and the gateway always fails, yet no
message at all is sent to the client — the engine error on the binary path
is only logged, contradicting "an Error message is sent to the client". -/
theorem spec_C6_counterexample :
    (handle_binary (fun _ => Except.error "engine failure") 0 0 [0, 0]
        ⟨List.replicate 8000 (0 : ℚ), none, false⟩).2.2 ≠ []
    ∧ (handle_binary (fun _ => Except.error "engine failure") 0 0 [0, 0]
        ⟨List.replicate 8000 (0 : ℚ), none, false⟩).2.1 = none := by
  have hp : pcmBytesToSamples [0, 0] = [0] := by
    simp [pcmBytesToSamples, i16_from_le_bytes]
  have hlen : ((⟨List.replicate 8000 (0 : ℚ), none, false⟩
      : StreamingSession).current_chunk ++ pcmBytesToSamples [0, 0]).length = 8001 := by
    show (List.replicate 8000 (0 : ℚ) ++ pcmBytesToSamples [0, 0]).length = 8001
    rw [hp, List.length_append, List.length_replicate]
    decide
  have h := hb_throttle_pass (fun _ => Except.error "engine failure") 0 0 [0, 0]
      ⟨List.replicate 8000 (0 : ℚ), none, false⟩ rfl
      (by rw [hlen]; decide)
      rfl
      (by rw [hlen]; decide)
  rw [h]
  exact ⟨List.cons_ne_nil _ _, rfl⟩

/-- C6 (amended): when the gateway fails on a triggered call, the
text-message streaming path reports an `Error` message and the session is
advanced (pending flag cleared); the raw binary-frame path still advances
the session (pending cleared, invocation time recorded) but only logs the
failure, sending no message; the one-shot path responds HTTP 500 with an
error body. -/
theorem spec_C6_amended :
    (∀ (gw : Gateway) (now tdone : Nat) (msg : ClientMessage) (s : StreamingSession)
        (a : List Sample) (e : String),
        (handle_client_message gw now tdone msg s).2.2 = [.start a, .stop] →
        gw a = .error e →
        (∃ m, (handle_client_message gw now tdone msg s).2.1 = some (.ErrorMsg m))
          ∧ ((handle_client_message gw now tdone msg s).1).transcription_pending = false)
    ∧ (∀ (gw : Gateway) (now tdone : Nat) (data : List Nat) (s : StreamingSession)
        (a : List Sample) (e : String),
        (handle_binary gw now tdone data s).2.2 = [.start a, .stop] →
        gw a = .error e →
        (handle_binary gw now tdone data s).2.1 = none
          ∧ ((handle_binary gw now tdone data s).1).transcription_pending = false
          ∧ ((handle_binary gw now tdone data s).1).last_transcribe_time = some tdone)
    ∧ (∀ (gw : Gateway) (extract : Except String (List Nat))
        (convert : List Nat → Except String (List Nat)) (bytes wav : List Nat)
        (samples : List Sample) (e : String),
        extract = .ok bytes → convert bytes = .ok wav →
        read_wav_samples wav = .ok samples → gw samples = .error e →
        transcribe_audio gw extract convert
          = (500, .err ("Transcription failed: " ++ e))) := by
  refine ⟨?_, ?_, ?_⟩
  · intro gw now tdone msg s a e hevs hgw
    cases msg with
    | Audio data rate =>
      by_cases hr : rate = SAMPLE_RATE
      · subst hr
        cases hdec : decode_audio data with
        | error e2 =>
          rw [hcm_decode_error gw now tdone data e2 s hdec] at hevs
          simp at hevs
        | ok samples =>
          by_cases hfull : CHUNK_SAMPLES ≤ (s.current_chunk ++ samples).length
          · rw [hcm_audio_full gw now tdone data samples s hdec hfull] at hevs ⊢
            simp only [List.cons.injEq, CallEvent.start.injEq, and_true] at hevs
            subst hevs
            rw [hgw]
            exact ⟨⟨"Transcription failed: " ++ e, rfl⟩, rfl⟩
          · by_cases hcond : StreamingSession.should_transcribe
                ⟨s.current_chunk ++ samples, s.last_transcribe_time,
                  s.transcription_pending⟩ now = true
                ∧ SAMPLE_RATE / 2 ≤ (s.current_chunk ++ samples).length
            · rw [hcm_audio_throttle_pass gw now tdone data samples s hdec hfull
                hcond.1 hcond.2] at hevs ⊢
              simp only [List.cons.injEq, CallEvent.start.injEq, and_true] at hevs
              subst hevs
              rw [hgw]
              exact ⟨⟨"Transcription failed: " ++ e, rfl⟩, rfl⟩
            · rw [hcm_audio_buffered gw now tdone data samples s hdec hfull hcond]
                at hevs
              simp at hevs
      · rw [hcm_rate_mismatch gw now tdone data rate s hr] at hevs
        simp at hevs
    | End =>
      by_cases hc : s.current_chunk = []
      · rw [hcm_end_empty gw now tdone s hc] at hevs
        simp at hevs
      · rw [hcm_end_nonempty gw now tdone s hc] at hevs ⊢
        simp only [List.cons.injEq, CallEvent.start.injEq, and_true] at hevs
        subst hevs
        rw [hgw]
        exact ⟨⟨"Finalization failed: " ++ e, rfl⟩, rfl⟩
    | Reset =>
      rw [hcm_reset gw now tdone s] at hevs
      simp at hevs
  · intro gw now tdone data s a e hevs hgw
    by_cases h2 : data.length % 2 = 0
    · by_cases hfull : CHUNK_SAMPLES ≤ (s.current_chunk ++ pcmBytesToSamples data).length
      · rw [hb_full gw now tdone data s h2 hfull] at hevs ⊢
        simp only [List.cons.injEq, CallEvent.start.injEq, and_true] at hevs
        subst hevs
        rw [hgw]
        exact ⟨rfl, rfl, rfl⟩
      · by_cases hcond : StreamingSession.should_transcribe
            ⟨s.current_chunk ++ pcmBytesToSamples data, s.last_transcribe_time,
              s.transcription_pending⟩ now = true
            ∧ SAMPLE_RATE / 2 ≤ (s.current_chunk ++ pcmBytesToSamples data).length
        · rw [hb_throttle_pass gw now tdone data s h2 hfull hcond.1 hcond.2] at hevs ⊢
          simp only [List.cons.injEq, CallEvent.start.injEq, and_true] at hevs
          subst hevs
          rw [hgw]
          exact ⟨rfl, rfl, rfl⟩
        · rw [hb_buffered gw now tdone data s h2 hfull hcond] at hevs
          simp at hevs
    · rw [hb_odd gw now tdone data s h2] at hevs
      simp at hevs
  · intro gw extract convert bytes wav samples e h1 h2 h3 h4
    simp [transcribe_audio, h1, h2, h3, h4]

/-- Witness for the amended C6: a concrete one-shot request whose
conversion yields a minimal WAV and whose gateway always fails gets
HTTP 500 with an error body. -/
theorem spec_C6_amended_witness :
    transcribe_audio (fun _ => Except.error "engine failure") (Except.ok [])
        (fun _ => Except.ok
          (List.replicate 36 (0 : Nat) ++ [100, 97, 116, 97] ++ [0, 0, 0, 0, 7]))
      = (500, .err ("Transcription failed: " ++ "engine failure")) := by
  have hread : read_wav_samples
      (List.replicate 36 (0 : Nat) ++ [100, 97, 116, 97] ++ [0, 0, 0, 0, 7])
      = Except.ok [] := by rfl
  exact spec_C6_amended.2.2 (fun _ => Except.error "engine failure") (Except.ok [])
    (fun _ => Except.ok
      (List.replicate 36 (0 : Nat) ++ [100, 97, 116, 97] ++ [0, 0, 0, 0, 7]))
    [] (List.replicate 36 (0 : Nat) ++ [100, 97, 116, 97] ++ [0, 0, 0, 0, 7])
    [] "engine failure" rfl rfl hread rfl

/-- Counterexample for C7 as stated: an odd-length binary frame produces
no outbound message at all — in particular no `Error` — and the session is
returned unchanged; the frame is silently dropped, not rejected with an
`Error` message. -/
theorem spec_C7_counterexample :
    handle_binary (fun _ => Except.ok ⟨"", 0⟩) 0 0 [0] StreamingSession.new
      = (StreamingSession.new, none, []) :=
  hb_odd (fun _ => Except.ok ⟨"", 0⟩) 0 0 [0] StreamingSession.new (by decide)

/-- C7 (amended): raw binary frames reuse the Audio buffering and policy
logic without base64 decoding, but an odd-length binary frame is silently
ignored: no outbound message is produced and the session buffer (indeed
the whole session state) is left unchanged. -/
theorem spec_C7_amended :
    ∀ (gw : Gateway) (now tdone : Nat) (data : List Nat) (s : StreamingSession),
      ¬ data.length % 2 = 0 →
      handle_binary gw now tdone data s = (s, none, []) :=
  fun gw now tdone data s h => hb_odd gw now tdone data s h

/-- Witness for the amended C7 at a three-byte frame. -/
theorem spec_C7_amended_witness :
    handle_binary (fun _ => Except.error "e") 3 4 [1, 2, 3]
        (⟨[5 / 32768], some 7, true⟩ : StreamingSession)
      = ((⟨[5 / 32768], some 7, true⟩ : StreamingSession), none, []) :=
  spec_C7_amended (fun _ => Except.error "e") 3 4 [1, 2, 3]
    ⟨[5 / 32768], some 7, true⟩ (by decide)
